import Mathlib

/-!
Verification of the incident lifecycle and SLA engine of the
Production Support Incident Console backend.

The definitions below are a shallow embedding of the Python source:
`backend/app/sla.py` (SLA policy resolver and SLA clock) and the
transition / closure / metrics logic of `backend/app/main.py`.
Timestamps are modelled as `Int` seconds; Python `timedelta(hours=h)`
is `h * 3600` seconds; durations in minutes are rationals.  Python
dicts keyed by strings are modelled as association lists, and
`dict.get(k, default)` as a recursive first-match lookup with default.
-/

namespace IncidentConsole

/-- RCA record: the four free-text fields of `models.RCA`
(`root_cause`, `contributing_factors`, `corrective_actions`,
`prevention_actions`). -/
structure RCA where
  root_cause : String
  contributing_factors : String
  corrective_actions : String
  prevention_actions : String
deriving DecidableEq

/-- The fields of `models.Incident` used by the lifecycle and metrics
logic.  `service_policy` stands for `incident.service.sla_policy if
incident.service else None` (an association list modelling the JSON
dict severity → hours); timestamps are `Int` seconds. -/
structure Incident where
  title : String
  description : String
  severity : String
  status : String
  service_policy : Option (List (String × Int))
  created_at : Int
  acknowledged_at : Option Int
  resolved_at : Option Int
  closed_at : Option Int
  rca : Option RCA
deriving DecidableEq

/-- The audit record fields of `models.IncidentEvent` that the
lifecycle logic writes: `type`, `body` and `created_by`. -/
structure IncidentEvent where
  type : String
  body : String
  created_by : Nat
deriving DecidableEq

/-- `schemas.IncidentStatusUpdate`: requested target status and
optional note. -/
structure IncidentStatusUpdate where
  status : String
  note : Option String
deriving DecidableEq

/-- `schemas.RCAIn`: the four required RCA fields of an upsert
payload. -/
structure RCAIn where
  root_cause : String
  contributing_factors : String
  corrective_actions : String
  prevention_actions : String
deriving DecidableEq

/-- The data of `schemas.IncidentCreate` that the lifecycle logic
uses. -/
structure IncidentCreate where
  title : String
  description : String
  severity : String
deriving DecidableEq

/-- A `fastapi.HTTPException`: status code and detail message. -/
structure HTTPError where
  status_code : Nat
  detail : String
deriving DecidableEq

/-- `sla.DEFAULT_SLA_HOURS`. -/
def DEFAULT_SLA_HOURS : List (String × Int) :=
  [("SEV1", 1), ("SEV2", 4), ("SEV3", 8), ("SEV4", 24)]

/-- Python `dict.get(k, default)` over an association-list dict:
first matching key wins, default when absent. -/
def dictGet {α : Type} (tbl : List (String × α)) (k : String) (dflt : α) : α :=
  match tbl with
  | [] => dflt
  | (key, v) :: rest => if k = key then v else dictGet rest k dflt

/-- Python `k in dict` over an association-list dict. -/
def dictHas {α : Type} (tbl : List (String × α)) (k : String) : Bool :=
  match tbl with
  | [] => false
  | (key, _) :: rest => if k = key then true else dictHas rest k

/-- `sla.severity_hours`: the service policy's value when the severity
key is present, else the global default, else 24. -/
def severity_hours (service_policy : Option (List (String × Int))) (severity : String) : Int :=
  let policy := service_policy.getD []
  if dictHas policy severity then dictGet policy severity 0
  else dictGet DEFAULT_SLA_HOURS severity 24

/-- `sla.deadline`: `created_at + timedelta(hours=hours)` in seconds. -/
def deadline (created_at : Int) (hours : Int) : Int :=
  created_at + hours * 3600

/-- `sla.breach_state`: `end_time > deadline(created_at, hours)`. -/
def breach_state (created_at : Int) (end_time : Int) (hours : Int) : Bool :=
  decide (end_time > deadline created_at hours)

/-- Python `str.strip()`: drop leading and trailing whitespace
characters (modelled over the string's character list so that it
evaluates in the kernel). -/
def pyStrip (s : String) : String :=
  String.mk (((s.data.dropWhile Char.isWhitespace).reverse.dropWhile
    Char.isWhitespace).reverse)

/-- `main.ALLOWED_TRANSITIONS`: the fixed status-transition table. -/
def ALLOWED_TRANSITIONS : List (String × List String) :=
  [("New", ["Investigating"]),
   ("Investigating", ["Mitigated", "Resolved"]),
   ("Mitigated", ["Resolved"]),
   ("Resolved", ["Closed"]),
   ("Closed", [])]

/-- `ALLOWED_TRANSITIONS.get(status, set())` from `main.update_status`. -/
def allowedFrom (status : String) : List String :=
  dictGet ALLOWED_TRANSITIONS status []

/-- Whether a transition from `cur` to `tgt` passes the table check of
`main.update_status` (`payload.status in allowed`). -/
def transitionAllowed (cur tgt : String) : Bool :=
  decide (tgt ∈ allowedFrom cur)

/-- The closure gate of `main.update_status`: `None` when closing may
proceed, otherwise the `HTTPException` the code raises — RCA missing,
or some RCA field empty after `strip()`. -/
def closureGate (rca : Option RCA) : Option HTTPError :=
  match rca with
  | none => some ⟨400, "RCA is required before closing an incident"⟩
  | some r =>
      if [r.root_cause, r.contributing_factors,
          r.corrective_actions, r.prevention_actions].any (fun x => pyStrip x = "")
      then some ⟨400, "All RCA fields are required before closing"⟩
      else none

/-- Whether an RCA attached to an incident passes the closure gate:
it exists and all four fields are non-empty after trimming. -/
def rcaComplete (rca : Option RCA) : Bool :=
  match rca with
  | none => false
  | some r =>
      !([r.root_cause, r.contributing_factors,
         r.corrective_actions, r.prevention_actions].any (fun x => pyStrip x = ""))

/-- The timestamp side effects of `main.update_status` lines 220-227:
stamp `acknowledged_at` on entering Investigating only when unset,
always stamp `resolved_at` on entering Resolved and `closed_at` on
entering Closed, then set the status. -/
def stampTimestamps (incident : Incident) (target : String) (now : Int) : Incident :=
  let i1 := if target = "Investigating" ∧ incident.acknowledged_at = none
            then { incident with acknowledged_at := some now } else incident
  let i2 := if target = "Resolved" then { i1 with resolved_at := some now } else i1
  let i3 := if target = "Closed" then { i2 with closed_at := some now } else i2
  { i3 with status := target }

/-- The audit-event body of `main.update_status` line 228:
`payload.note or f"Status changed to ..."` — a `None` or empty note
falls back to the generated default. -/
def statusEventBody (note : Option String) (target : String) : String :=
  match note with
  | some n => if n = "" then "Status changed to " ++ target else n
  | none => "Status changed to " ++ target

/-- `main.update_status` on an existing incident: table check, closure
gate, timestamp stamping, status change and the appended audit event.
A raised `HTTPException` is the `.error` case and performs no
mutation; success returns the updated incident and the one event
added. -/
def update_status (incident : Incident) (payload : IncidentStatusUpdate)
    (now : Int) (actorId : Nat) : Except HTTPError (Incident × IncidentEvent) :=
  let allowed := allowedFrom incident.status
  if payload.status ∈ allowed then
    match (if payload.status = "Closed" then closureGate incident.rca else none) with
    | some err => .error err
    | none =>
        .ok (stampTimestamps incident payload.status now,
             ⟨"status_change", statusEventBody payload.note payload.status, actorId⟩)
  else
    .error ⟨400, "Invalid transition from " ++ incident.status ++ " to " ++ payload.status⟩

/-- The incident state the endpoint leaves behind: the updated record
on success, the unchanged record when the request raises. -/
def runUpdate (incident : Incident) (payload : IncidentStatusUpdate)
    (now : Int) (actorId : Nat) : Incident :=
  match update_status incident payload now actorId with
  | .ok (i', _) => i'
  | .error _ => incident

/-- Whether an endpoint result is a success. -/
def exceptOk (r : Except HTTPError (Incident × IncidentEvent)) : Bool :=
  match r with
  | .ok _ => true
  | .error _ => false

/-- Whether a result is one of the two closure-gate failures
(`ClosureBlocked` in the spec's taxonomy). -/
def isClosureBlockedResult (r : Except HTTPError (Incident × IncidentEvent)) : Bool :=
  match r with
  | .error e => e.detail == "RCA is required before closing an incident"
      || e.detail == "All RCA fields are required before closing"
  | .ok _ => false

/-- `main.create_incident`: a new incident in status New with only
`created_at` stamped, plus the initial audit event. -/
def create_incident (payload : IncidentCreate)
    (service_policy : Option (List (String × Int))) (now : Int) (actorId : Nat) :
    Incident × IncidentEvent :=
  (⟨payload.title, payload.description, payload.severity, "New",
    service_policy, now, none, none, none, none⟩,
   ⟨"status_change", "Incident created with status New", actorId⟩)

/-- `main.upsert_rca` on an existing incident: overwrite all four
fields when an RCA exists, else create one from the payload. -/
def upsert_rca (incident : Incident) (payload : RCAIn) : Incident :=
  match incident.rca with
  | some _ =>
      { incident with rca := some ⟨payload.root_cause, payload.contributing_factors,
                                   payload.corrective_actions, payload.prevention_actions⟩ }
  | none =>
      { incident with rca := some ⟨payload.root_cause, payload.contributing_factors,
                                   payload.corrective_actions, payload.prevention_actions⟩ }

/-- `schemas.MetricsOut`; the two means and the breach rate are
rationals. -/
structure MetricsOut where
  total_incidents : Nat
  open_incidents : Nat
  closed_incidents : Nat
  mtta_minutes : ℚ
  mttr_minutes : ℚ
  breach_rate : ℚ
deriving DecidableEq

/-- Python `round(x, 2)` modelled on rationals: round to the nearest
hundredth. -/
def round2 (q : ℚ) : ℚ :=
  ((round (q * 100) : ℤ) : ℚ) / 100

/-- `statistics.mean` of a list of rationals. -/
def listMean (l : List ℚ) : ℚ :=
  l.sum / l.length

/-- `incident.closed_at or incident.resolved_at` from the metrics
loop. -/
def endTimeOf (i : Incident) : Option Int :=
  match i.closed_at with
  | some e => some e
  | none => i.resolved_at

/-- `main.metrics`: totals, open/closed counts, MTTA, MTTR and breach
rate over a collection of incidents, all zero when there are none. -/
def metrics (incidents : List Incident) : MetricsOut :=
  if incidents = [] then ⟨0, 0, 0, 0, 0, 0⟩
  else
    let closed_or_resolved := incidents.filter
      (fun i => i.resolved_at.isSome || i.closed_at.isSome)
    let open_incidents := incidents.filter
      (fun i => !(i.status == "Resolved" || i.status == "Closed"))
    let ack_durations := incidents.filterMap
      (fun i => i.acknowledged_at.map (fun (a : Int) => ((a : ℚ) - (i.created_at : ℚ)) / 60))
    let resolve_durations := closed_or_resolved.filterMap
      (fun i => (endTimeOf i).map (fun (e : Int) => ((e : ℚ) - (i.created_at : ℚ)) / 60))
    let breaches := closed_or_resolved.filterMap
      (fun i => (endTimeOf i).map
        (fun (e : Int) => if breach_state i.created_at e (severity_hours i.service_policy i.severity)
                  then (1 : ℚ) else 0))
    ⟨incidents.length,
     open_incidents.length,
     (incidents.filter (fun i => i.status == "Closed")).length,
     if ack_durations = [] then 0 else round2 (listMean ack_durations),
     if resolve_durations = [] then 0 else round2 (listMean resolve_durations),
     if breaches = [] then 0 else round2 ((breaches.sum / breaches.length) * 100)⟩

/-- Spec-side (§4.5): the incidents with `acknowledged_at` set. -/
def ackPopulation (l : List Incident) : List Incident :=
  l.filter (fun i => i.acknowledged_at.isSome)

/-- Spec-side (§4.5): the incidents with `resolved_at` or `closed_at`
set — the MTTR and breach-rate population. -/
def mttrPopulation (l : List Incident) : List Incident :=
  l.filter (fun i => i.resolved_at.isSome || i.closed_at.isSome)

/-- Spec-side (§4.5): `end_time` = `closed_at` if set else
`resolved_at` (the population guarantees one is set). -/
def endTimeClaim (i : Incident) : Int :=
  match i.closed_at with
  | some e => e
  | none => i.resolved_at.getD 0

/-- Spec-side (§4.5): `(acknowledged_at - created_at)` in minutes. -/
def ackMinutes (i : Incident) : ℚ :=
  ((i.acknowledged_at.getD 0 : ℚ) - (i.created_at : ℚ)) / 60

/-- Spec-side (§4.5): `(end_time - created_at)` in minutes. -/
def resolutionMinutes (i : Incident) : ℚ :=
  ((endTimeClaim i : ℚ) - (i.created_at : ℚ)) / 60

/-- Spec-side (§4.5): the arithmetic mean of acknowledgement delays,
0 when no incident is acknowledged, rounded to 2 decimals. -/
def mttaClaim (l : List Incident) : ℚ :=
  let pop := ackPopulation l
  if pop = [] then 0 else round2 (((pop.map ackMinutes).sum) / pop.length)

/-- Spec-side (§4.5): the arithmetic mean of resolution delays over
the MTTR population, 0 when empty, rounded to 2 decimals. -/
def mttrClaim (l : List Incident) : ℚ :=
  let pop := mttrPopulation l
  if pop = [] then 0 else round2 (((pop.map resolutionMinutes).sum) / pop.length)

/-- Spec-side (§4.5): whether an incident in the MTTR population is
breached per the SLA clock. -/
def breachedClaim (i : Incident) : Bool :=
  breach_state i.created_at (endTimeClaim i) (severity_hours i.service_policy i.severity)

/-- Spec-side (§4.5): 100 × breached count / population size over the
MTTR population, 0 when empty, rounded to 2 decimals. -/
def breachRateClaim (l : List Incident) : ℚ :=
  let pop := mttrPopulation l
  if pop = [] then 0
  else round2 (100 * (pop.countP breachedClaim : ℚ) / pop.length)

/-- Rank of a status in the lifecycle order, for stating that no
backward transition is allowed. -/
def statusRank (s : String) : Nat :=
  if s = "New" then 0
  else if s = "Investigating" then 1
  else if s = "Mitigated" then 2
  else if s = "Resolved" then 3
  else if s = "Closed" then 4
  else 0

/-- The set timestamps of an incident are in lifecycle order:
acknowledged ≤ resolved ≤ closed. -/
def tsOrdered (i : Incident) : Prop :=
  (∀ a r, i.acknowledged_at = some a → i.resolved_at = some r → a ≤ r) ∧
  (∀ r c, i.resolved_at = some r → i.closed_at = some c → r ≤ c) ∧
  (∀ a c, i.acknowledged_at = some a → i.closed_at = some c → a ≤ c)

/-- Every set timestamp of `i` is at most `t`. -/
def timesLE (i : Incident) (t : Int) : Prop :=
  (∀ a, i.acknowledged_at = some a → a ≤ t) ∧
  (∀ r, i.resolved_at = some r → r ≤ t) ∧
  (∀ c, i.closed_at = some c → c ≤ t)

/-- The lifecycle invariant: set timestamps are ordered, the status is
one of the five lifecycle states, and the later timestamps are unset
while the status has not yet reached the corresponding state. -/
def lifecycleInv (i : Incident) : Prop :=
  tsOrdered i ∧
  (i.status = "New" ∨ i.status = "Investigating" ∨ i.status = "Mitigated" ∨
   i.status = "Resolved" ∨ i.status = "Closed") ∧
  ((i.status = "New" ∨ i.status = "Investigating" ∨ i.status = "Mitigated") →
    i.resolved_at = none ∧ i.closed_at = none) ∧
  (i.status = "Resolved" → i.closed_at = none)

/-- Timestamps already set in `i` survive unchanged into `i'`. -/
def timestampsPreserved (i i' : Incident) : Prop :=
  (∀ v, i.acknowledged_at = some v → i'.acknowledged_at = some v) ∧
  (∀ v, i.resolved_at = some v → i'.resolved_at = some v) ∧
  (∀ v, i.closed_at = some v → i'.closed_at = some v)

/-- The states an incident can be in at a given time: freshly created
at that time, or reached from an earlier reachable state by one
successful status transition performed at that time. -/
inductive ReachableAt : Incident → Int → Prop where
  | created (payload : IncidentCreate) (pol : Option (List (String × Int)))
      (t : Int) (actor : Nat) :
      ReachableAt (create_incident payload pol t actor).1 t
  | step {i : Incident} {t : Int} (payload : IncidentStatusUpdate) (now : Int)
      (actor : Nat) {i' : Incident} {e : IncidentEvent} :
      ReachableAt i t → t ≤ now →
      update_status i payload now actor = .ok (i', e) →
      ReachableAt i' now

/-- Sample payload for concrete witnesses. -/
def samplePayload : IncidentCreate := ⟨"db down", "primary database down", "SEV2"⟩

/-- A freshly created incident (created at time 0 by actor 7). -/
def incNew : Incident := (create_incident samplePayload none 0 7).1

/-- A resolved incident with no RCA attached. -/
def incResolvedNoRca : Incident :=
  ⟨"db down", "primary database down", "SEV2", "Resolved",
   none, 0, some 60, some 120, none, none⟩

/-- A complete RCA. -/
def rcaFull : RCA := ⟨"bad deploy", "no canary", "rollback", "add canary"⟩

/-- A resolved incident carrying a complete RCA. -/
def incResolvedRca : Incident :=
  ⟨"db down", "primary database down", "SEV2", "Resolved",
   none, 0, some 60, some 120, none, some rcaFull⟩

/-! ## Helper lemmas -/

theorem allowedFrom_cases (s : String) :
    allowedFrom s =
      if s = "New" then ["Investigating"]
      else if s = "Investigating" then ["Mitigated", "Resolved"]
      else if s = "Mitigated" then ["Resolved"]
      else if s = "Resolved" then ["Closed"]
      else [] := by
  simp only [allowedFrom, ALLOWED_TRANSITIONS, dictGet]
  split_ifs <;> rfl

theorem transitionAllowed_mem (cur tgt : String) :
    transitionAllowed cur tgt = true ↔ tgt ∈ allowedFrom cur := by
  simp [transitionAllowed]

theorem transitionAllowed_true_iff (cur tgt : String) :
    transitionAllowed cur tgt = true ↔
      (cur = "New" ∧ tgt = "Investigating") ∨
      (cur = "Investigating" ∧ (tgt = "Mitigated" ∨ tgt = "Resolved")) ∨
      (cur = "Mitigated" ∧ tgt = "Resolved") ∨
      (cur = "Resolved" ∧ tgt = "Closed") := by
  rw [transitionAllowed_mem, allowedFrom_cases]
  split_ifs with h1 h2 h3 h4 <;> simp_all

theorem closureGate_none_iff (r : Option RCA) :
    closureGate r = none ↔ rcaComplete r = true := by
  cases r with
  | none => simp [closureGate, rcaComplete]
  | some r =>
    simp only [closureGate, rcaComplete]
    split_ifs with h <;> simp [h]

theorem update_status_ok_of (i : Incident) (p : IncidentStatusUpdate) (now : Int)
    (a : Nat) (hmem : p.status ∈ allowedFrom i.status)
    (hgate : p.status = "Closed" → closureGate i.rca = none) :
    update_status i p now a =
      .ok (stampTimestamps i p.status now,
           ⟨"status_change", statusEventBody p.note p.status, a⟩) := by
  unfold update_status
  rw [if_pos hmem]
  by_cases hc : p.status = "Closed"
  · rw [if_pos hc, hgate hc]
  · rw [if_neg hc]

theorem update_status_error_of_not_mem (i : Incident) (p : IncidentStatusUpdate)
    (now : Int) (a : Nat) (hmem : p.status ∉ allowedFrom i.status) :
    update_status i p now a =
      .error ⟨400, "Invalid transition from " ++ i.status ++ " to " ++ p.status⟩ := by
  unfold update_status
  rw [if_neg hmem]

theorem update_status_ok_elim {i : Incident} {p : IncidentStatusUpdate} {now : Int}
    {a : Nat} {i' : Incident} {e : IncidentEvent}
    (h : update_status i p now a = .ok (i', e)) :
    p.status ∈ allowedFrom i.status ∧
    (p.status = "Closed" → closureGate i.rca = none) ∧
    i' = stampTimestamps i p.status now ∧
    e = ⟨"status_change", statusEventBody p.note p.status, a⟩ := by
  by_cases hmem : p.status ∈ allowedFrom i.status
  · by_cases hc : p.status = "Closed"
    · cases hg : closureGate i.rca with
      | some err =>
        have herr : update_status i p now a = .error err := by
          unfold update_status
          rw [if_pos hmem, if_pos hc, hg]
        rw [herr] at h
        exact absurd h (by simp)
      | none =>
        rw [update_status_ok_of i p now a hmem (fun _ => hg)] at h
        simp only [Except.ok.injEq, Prod.mk.injEq] at h
        exact ⟨hmem, fun _ => rfl, h.1.symm, h.2.symm⟩
    · rw [update_status_ok_of i p now a hmem (fun hcl => absurd hcl hc)] at h
      simp only [Except.ok.injEq, Prod.mk.injEq] at h
      exact ⟨hmem, fun hcl => absurd hcl hc, h.1.symm, h.2.symm⟩
  · rw [update_status_error_of_not_mem i p now a hmem] at h
    exact absurd h (by simp)

theorem stampTimestamps_acknowledged (i : Incident) (target : String) (now : Int) :
    (stampTimestamps i target now).acknowledged_at =
      (if target = "Investigating" ∧ i.acknowledged_at = none
       then some now else i.acknowledged_at) := by
  unfold stampTimestamps
  split_ifs <;> simp_all

theorem stampTimestamps_resolved (i : Incident) (target : String) (now : Int) :
    (stampTimestamps i target now).resolved_at =
      (if target = "Resolved" then some now else i.resolved_at) := by
  unfold stampTimestamps
  split_ifs <;> simp_all

theorem stampTimestamps_closed (i : Incident) (target : String) (now : Int) :
    (stampTimestamps i target now).closed_at =
      (if target = "Closed" then some now else i.closed_at) := by
  unfold stampTimestamps
  split_ifs <;> simp_all

theorem stampTimestamps_status (i : Incident) (target : String) (now : Int) :
    (stampTimestamps i target now).status = target := by
  unfold stampTimestamps
  split_ifs <;> rfl

theorem dictGet_of_not_has {α : Type} (tbl : List (String × α)) (k : String) (d : α)
    (h : dictHas tbl k = false) : dictGet tbl k d = d := by
  induction tbl with
  | nil => rfl
  | cons p rest ih =>
    unfold dictHas at h
    unfold dictGet
    split_ifs with hk
    · rw [if_pos hk] at h
      exact absurd h (by simp)
    · exact ih (by rwa [if_neg hk] at h)

theorem closureGate_some_cases {r : Option RCA} {err : HTTPError}
    (h : closureGate r = some err) :
    err = ⟨400, "RCA is required before closing an incident"⟩ ∨
    err = ⟨400, "All RCA fields are required before closing"⟩ := by
  cases r with
  | none =>
    left
    simpa [closureGate] using h.symm
  | some r =>
    simp only [closureGate] at h
    split_ifs at h with hf
    right
    simpa using h.symm

/-! ## Claim theorems -/

/-- C5: `deadline(created_at, budget_hours)` is exactly `created_at`
plus `budget_hours` hours (no calendar or timezone adjustment), and
`breach_state` is true iff `end_time` is strictly past that deadline:
an `end_time` exactly on the deadline is not a breach, one second past
it is. -/
theorem sla_clock_spec (c e h : Int) :
    deadline c h = c + h * 3600 ∧
    (breach_state c e h = true ↔ e > deadline c h) ∧
    breach_state c (deadline c h) h = false ∧
    breach_state c (deadline c h + 1) h = true := by
  refine ⟨rfl, by simp [breach_state], ?_, ?_⟩
  · simp [breach_state]
  · simp [breach_state]

/-- C7: `severity_hours` returns the service policy's value whenever
the policy contains the severity key (the override wins
unconditionally), otherwise the global default table
{SEV1 → 1, SEV2 → 4, SEV3 → 8, SEV4 → 24}, and 24 for a severity
absent from both, never an error. -/
theorem severity_hours_spec (pol : Option (List (String × Int))) (sev : String) :
    (dictHas (pol.getD []) sev = true →
      severity_hours pol sev = dictGet (pol.getD []) sev 0) ∧
    (dictHas (pol.getD []) sev = false →
      severity_hours pol sev = dictGet DEFAULT_SLA_HOURS sev 24) ∧
    (dictHas (pol.getD []) sev = false → dictHas DEFAULT_SLA_HOURS sev = false →
      severity_hours pol sev = 24) ∧
    severity_hours none "SEV1" = 1 ∧ severity_hours none "SEV2" = 4 ∧
    severity_hours none "SEV3" = 8 ∧ severity_hours none "SEV4" = 24 := by
  refine ⟨?_, ?_, ?_, rfl, rfl, rfl, rfl⟩
  · intro h
    simp only [severity_hours]
    rw [if_pos h]
  · intro h
    simp only [severity_hours]
    rw [if_neg (by simp [h])]
  · intro h hd
    simp only [severity_hours]
    rw [if_neg (by simp [h]), dictGet_of_not_has _ _ _ hd]

/-- C7 witness: a policy override of 2 hours for SEV1 beats the
default of 1; an unknown severity with an empty policy falls back
to 24. -/
theorem severity_hours_spec_witness :
    severity_hours (some [("SEV1", 2)]) "SEV1" = 2 ∧
    severity_hours (some []) "SEV9" = 24 :=
  ⟨((severity_hours_spec (some [("SEV1", 2)]) "SEV1").1 (by decide)).trans (by decide),
   (severity_hours_spec (some []) "SEV9").2.2.1 (by decide) (by decide)⟩

/-- C8: `upsert_rca` stores exactly the four payload fields — creating
the record when none exists and overwriting all four fields otherwise
— with no emptiness validation, and leaves the incident's status and
timestamps untouched. -/
theorem upsert_rca_spec (i : Incident) (p : RCAIn) :
    (upsert_rca i p).rca = some ⟨p.root_cause, p.contributing_factors,
                                 p.corrective_actions, p.prevention_actions⟩ ∧
    (upsert_rca i p).status = i.status ∧
    (upsert_rca i p).acknowledged_at = i.acknowledged_at ∧
    (upsert_rca i p).resolved_at = i.resolved_at ∧
    (upsert_rca i p).closed_at = i.closed_at := by
  cases h : i.rca <;> simp [upsert_rca, h]

/-- C3: on every successful transition, `acknowledged_at` is stamped
with now exactly when the target is Investigating and it was unset,
`resolved_at` is always overwritten with now exactly when the target
is Resolved, `closed_at` always overwritten with now exactly when the
target is Closed, and no other target touches any of the three. -/
theorem update_status_timestamp_effects (i : Incident) (p : IncidentStatusUpdate)
    (now : Int) (a : Nat) (i' : Incident) (e : IncidentEvent)
    (h : update_status i p now a = .ok (i', e)) :
    i'.acknowledged_at = (if p.status = "Investigating" ∧ i.acknowledged_at = none
                          then some now else i.acknowledged_at) ∧
    i'.resolved_at = (if p.status = "Resolved" then some now else i.resolved_at) ∧
    i'.closed_at = (if p.status = "Closed" then some now else i.closed_at) := by
  obtain ⟨-, -, hi, -⟩ := update_status_ok_elim h
  subst hi
  exact ⟨stampTimestamps_acknowledged i p.status now,
         stampTimestamps_resolved i p.status now,
         stampTimestamps_closed i p.status now⟩

/-- C3 witness: acknowledging a fresh incident by moving it to
Investigating at time 5 stamps `acknowledged_at := 5` and leaves the
other timestamps unset. -/
theorem update_status_timestamp_effects_witness :
    (⟨"db down", "primary database down", "SEV2", "Investigating",
      none, 0, some 5, none, none, none⟩ : Incident).acknowledged_at =
      (if "Investigating" = "Investigating" ∧ incNew.acknowledged_at = none
       then some (5 : Int) else incNew.acknowledged_at) ∧
    (⟨"db down", "primary database down", "SEV2", "Investigating",
      none, 0, some 5, none, none, none⟩ : Incident).resolved_at =
      (if "Investigating" = "Resolved" then some (5 : Int) else incNew.resolved_at) ∧
    (⟨"db down", "primary database down", "SEV2", "Investigating",
      none, 0, some 5, none, none, none⟩ : Incident).closed_at =
      (if "Investigating" = "Closed" then some (5 : Int) else incNew.closed_at) :=
  update_status_timestamp_effects incNew ⟨"Investigating", none⟩ 5 3
    ⟨"db down", "primary database down", "SEV2", "Investigating",
     none, 0, some 5, none, none, none⟩
    ⟨"status_change", "Status changed to Investigating", 3⟩ (by rfl)

/-- C9: every successful transition produces exactly one audit event,
of type status_change, attributed to the actor, whose body is the
caller's note when one is provided (non-empty) and the generated
default "Status changed to {target}" otherwise; creation produces the
initial event "Incident created with status New".  A failed transition
returns an error carrying no event. -/
theorem audit_event_spec (i : Incident) (p : IncidentStatusUpdate) (now : Int)
    (a : Nat) (i' : Incident) (e : IncidentEvent) (payload : IncidentCreate)
    (pol : Option (List (String × Int))) (t : Int) (b : Nat) :
    (update_status i p now a = .ok (i', e) →
      e.type = "status_change" ∧ e.created_by = a ∧
      (p.note = none → e.body = "Status changed to " ++ p.status) ∧
      (∀ n, p.note = some n → n ≠ "" → e.body = n)) ∧
    (create_incident payload pol t b).2.type = "status_change" ∧
    (create_incident payload pol t b).2.body = "Incident created with status New" ∧
    (create_incident payload pol t b).2.created_by = b := by
  refine ⟨?_, rfl, rfl, rfl⟩
  intro h
  obtain ⟨-, -, -, he⟩ := update_status_ok_elim h
  subst he
  refine ⟨rfl, rfl, ?_, ?_⟩
  · intro hn
    simp [statusEventBody, hn]
  · intro n hn hne
    simp [statusEventBody, hn, hne]

/-- C9 witness: the transition of a fresh incident to Investigating
with no note yields the default-body status_change event by actor 3;
creation by actor 7 yields the initial event. -/
theorem audit_event_spec_witness :
    ((⟨"status_change", "Status changed to Investigating", 3⟩ : IncidentEvent).type
        = "status_change" ∧
     (⟨"status_change", "Status changed to Investigating", 3⟩ : IncidentEvent).created_by = 3 ∧
     ((none : Option String) = none →
       (⟨"status_change", "Status changed to Investigating", 3⟩ : IncidentEvent).body =
         "Status changed to " ++ "Investigating") ∧
     (∀ n, (none : Option String) = some n → n ≠ "" →
       (⟨"status_change", "Status changed to Investigating", 3⟩ : IncidentEvent).body = n)) ∧
    (create_incident samplePayload none 0 7).2.type = "status_change" ∧
    (create_incident samplePayload none 0 7).2.body = "Incident created with status New" ∧
    (create_incident samplePayload none 0 7).2.created_by = 7 := by
  have h := audit_event_spec incNew ⟨"Investigating", none⟩ 5 3
    ⟨"db down", "primary database down", "SEV2", "Investigating",
     none, 0, some 5, none, none, none⟩
    ⟨"status_change", "Status changed to Investigating", 3⟩ samplePayload none 0 7
  exact ⟨h.1 (by rfl), h.2⟩

/-- C10: a caller-supplied note that is the empty string is treated
exactly like an absent note: the appended event's body is the
generated default "Status changed to {target}". -/
theorem empty_note_uses_default_body (i : Incident) (p : IncidentStatusUpdate)
    (now : Int) (a : Nat) (i' : Incident) (e : IncidentEvent)
    (h : update_status i p now a = .ok (i', e)) (hn : p.note = some "") :
    e.body = "Status changed to " ++ p.status := by
  obtain ⟨-, -, -, he⟩ := update_status_ok_elim h
  subst he
  simp [statusEventBody, hn]

/-- C10 witness: transitioning with the empty-string note produces the
default body. -/
theorem empty_note_uses_default_body_witness :
    (⟨"status_change", "Status changed to Investigating", 3⟩ : IncidentEvent).body =
      "Status changed to " ++ "Investigating" :=
  empty_note_uses_default_body incNew ⟨"Investigating", some ""⟩ 5 3
    ⟨"db down", "primary database down", "SEV2", "Investigating",
     none, 0, some 5, none, none, none⟩
    ⟨"status_change", "Status changed to Investigating", 3⟩ (by rfl) rfl

/-- C1 counterexample: from status Resolved with no RCA attached, the
target Closed is in the allowed-destinations set of the table, yet the
transition does not succeed — so success is not equivalent to table
membership. -/
theorem transition_iff_table_counterexample :
    transitionAllowed incResolvedNoRca.status "Closed" = true ∧
    exceptOk (update_status incResolvedNoRca ⟨"Closed", none⟩ 200 3) = false := by
  exact ⟨rfl, rfl⟩

/-- C1 (amended): a transition fails with the invalid-transition error
naming both statuses iff the target is not in the allowed-destinations
set of the table New → Investigating, Investigating → Mitigated or
Resolved, Mitigated → Resolved, Resolved → Closed, Closed → none; an
allowed transition to a target other than Closed always succeeds,
while an allowed transition to Closed succeeds exactly when the
closure gate passes; no self-transition and no backward transition is
ever allowed. -/
theorem transition_table_gate (i : Incident) (p : IncidentStatusUpdate)
    (now : Int) (a : Nat) :
    (transitionAllowed i.status p.status = false →
      update_status i p now a =
        .error ⟨400, "Invalid transition from " ++ i.status ++ " to " ++ p.status⟩) ∧
    (transitionAllowed i.status p.status = true → p.status ≠ "Closed" →
      exceptOk (update_status i p now a) = true) ∧
    (transitionAllowed i.status p.status = true → p.status = "Closed" →
      exceptOk (update_status i p now a) = rcaComplete i.rca) ∧
    transitionAllowed p.status p.status = false ∧
    (statusRank p.status ≤ statusRank i.status →
      transitionAllowed i.status p.status = false) := by
  refine ⟨?_, ?_, ?_, ?_, ?_⟩
  · intro hfalse
    exact update_status_error_of_not_mem i p now a
      (fun hmem => by simp [(transitionAllowed_mem i.status p.status).mpr hmem] at hfalse)
  · intro htrue hnc
    rw [update_status_ok_of i p now a ((transitionAllowed_mem _ _).mp htrue)
      (fun hc => absurd hc hnc)]
    rfl
  · intro htrue hc
    cases hcomp : rcaComplete i.rca with
    | true =>
      rw [update_status_ok_of i p now a ((transitionAllowed_mem _ _).mp htrue)
        (fun _ => (closureGate_none_iff i.rca).mpr hcomp)]
      rfl
    | false =>
      cases hg : closureGate i.rca with
      | none => rw [(closureGate_none_iff i.rca).mp hg] at hcomp; exact absurd hcomp (by simp)
      | some err =>
        have herr : update_status i p now a = .error err := by
          unfold update_status
          rw [if_pos ((transitionAllowed_mem _ _).mp htrue), if_pos hc, hg]
        rw [herr]
        rfl
  · cases h : transitionAllowed p.status p.status with
    | false => rfl
    | true =>
      exfalso
      rcases (transitionAllowed_true_iff _ _).mp h with
        ⟨h1, h2⟩ | ⟨h1, h2 | h2⟩ | ⟨h1, h2⟩ | ⟨h1, h2⟩ <;> rw [h1] at h2 <;> simp at h2
  · intro hle
    cases h : transitionAllowed i.status p.status with
    | false => rfl
    | true =>
      exfalso
      rcases (transitionAllowed_true_iff _ _).mp h with
        ⟨h1, h2⟩ | ⟨h1, h2 | h2⟩ | ⟨h1, h2⟩ | ⟨h1, h2⟩ <;>
        rw [h1, h2] at hle <;> simp [statusRank] at hle

/-- C1 witness: a New incident cannot jump to Closed and the error
names both statuses; New → Investigating succeeds; Resolved → Closed
with a complete RCA succeeds (the gate value). -/
theorem transition_table_gate_witness :
    update_status incNew ⟨"Closed", none⟩ 0 3 =
      .error ⟨400, "Invalid transition from " ++ incNew.status ++ " to " ++ "Closed"⟩ ∧
    exceptOk (update_status incNew ⟨"Investigating", none⟩ 5 3) = true ∧
    exceptOk (update_status incResolvedRca ⟨"Closed", none⟩ 200 3) =
      rcaComplete incResolvedRca.rca :=
  ⟨(transition_table_gate incNew ⟨"Closed", none⟩ 0 3).1 (by rfl),
   (transition_table_gate incNew ⟨"Investigating", none⟩ 5 3).2.1 (by rfl) (by decide),
   (transition_table_gate incResolvedRca ⟨"Closed", none⟩ 200 3).2.2.1 (by rfl) rfl⟩

/-- C2 counterexample: a New incident with no RCA: the claim demands
that a request targeting Closed fail with ClosureBlocked, but the code
fails it with the invalid-transition error instead (the table check
runs first). -/
theorem closure_gate_counterexample :
    incNew.rca = none ∧
    isClosureBlockedResult (update_status incNew ⟨"Closed", none⟩ 0 3) = false ∧
    exceptOk (update_status incNew ⟨"Closed", none⟩ 0 3) = false := by
  exact ⟨rfl, rfl, rfl⟩

/-- C2 (amended): for an incident whose current status allows Closed
(that is, status Resolved), a transition targeting Closed fails with a
ClosureBlocked error unless an RCA exists with all four fields
non-empty after trimming, and a blocked attempt leaves the stored
incident — status and all timestamps — completely unchanged; with a
complete RCA the closure succeeds. -/
theorem closure_gate_spec (i : Incident) (note : Option String) (now : Int)
    (a : Nat) (hres : i.status = "Resolved") :
    (rcaComplete i.rca = false →
      isClosureBlockedResult (update_status i ⟨"Closed", note⟩ now a) = true ∧
      runUpdate i ⟨"Closed", note⟩ now a = i) ∧
    (rcaComplete i.rca = true →
      exceptOk (update_status i ⟨"Closed", note⟩ now a) = true) := by
  have hmem : "Closed" ∈ allowedFrom i.status := by
    rw [allowedFrom_cases, hres]
    simp
  constructor
  · intro hcomp
    cases hg : closureGate i.rca with
    | none => rw [(closureGate_none_iff i.rca).mp hg] at hcomp; exact absurd hcomp (by simp)
    | some err =>
      have herr : update_status i ⟨"Closed", note⟩ now a = .error err := by
        have hc : (⟨"Closed", note⟩ : IncidentStatusUpdate).status = "Closed" := rfl
        unfold update_status
        rw [if_pos hmem, if_pos hc, hg]
      refine ⟨?_, ?_⟩
      · rw [herr]
        rcases closureGate_some_cases hg with h | h <;> subst h <;> rfl
      · unfold runUpdate
        rw [herr]
  · intro hcomp
    rw [update_status_ok_of i ⟨"Closed", note⟩ now a hmem
      (fun _ => (closureGate_none_iff i.rca).mpr hcomp)]
    rfl

/-- C2 witness: closing a Resolved incident without an RCA is blocked
and leaves it unchanged; closing one with a complete RCA succeeds. -/
theorem closure_gate_spec_witness :
    (isClosureBlockedResult (update_status incResolvedNoRca ⟨"Closed", none⟩ 200 3) = true ∧
     runUpdate incResolvedNoRca ⟨"Closed", none⟩ 200 3 = incResolvedNoRca) ∧
    exceptOk (update_status incResolvedRca ⟨"Closed", none⟩ 200 3) = true :=
  ⟨(closure_gate_spec incResolvedNoRca none 200 3 rfl).1 rfl,
   (closure_gate_spec incResolvedRca none 200 3 rfl).2 (by decide)⟩

theorem endTimeOf_getD (i : Incident) : (endTimeOf i).getD 0 = endTimeClaim i := by
  cases h : i.closed_at <;> simp [endTimeOf, endTimeClaim, h]

theorem mttrPopulation_endTime_isSome (l : List Incident) :
    ∀ i ∈ mttrPopulation l, (endTimeOf i).isSome = true := by
  intro i hi
  have hp := (List.mem_filter.mp hi).2
  cases hc : i.closed_at <;> cases hr : i.resolved_at <;> simp_all [endTimeOf]

theorem filterMap_eq_map_of_endTime {γ : Type} (g : Incident → Int → γ)
    (m : List Incident) (hm : ∀ i ∈ m, (endTimeOf i).isSome = true) :
    m.filterMap (fun i => (endTimeOf i).map (g i)) =
      m.map (fun i => g i (endTimeClaim i)) := by
  induction m with
  | nil => rfl
  | cons a t ih =>
    have ha := hm a (List.mem_cons_self a t)
    cases h : endTimeOf a with
    | none => rw [h] at ha; simp at ha
    | some v =>
      have he : endTimeClaim a = v := by
        have hg := endTimeOf_getD a
        rw [h] at hg
        simpa using hg.symm
      simp [List.filterMap_cons, h,
        ih (fun i hi => hm i (List.mem_cons_of_mem a hi)), he]

theorem mttrPopulation_def (l : List Incident) :
    mttrPopulation l = l.filter (fun i => i.resolved_at.isSome || i.closed_at.isSome) := rfl

theorem metrics_ack_list (l : List Incident) :
    l.filterMap (fun i => i.acknowledged_at.map
        (fun (a : Int) => ((a : ℚ) - (i.created_at : ℚ)) / 60)) =
      (ackPopulation l).map ackMinutes := by
  induction l with
  | nil => rfl
  | cons a t ih =>
    cases h : a.acknowledged_at <;>
      simp [List.filterMap_cons, ackPopulation, List.filter_cons, h, ih, ackMinutes]

theorem metrics_res_list (l : List Incident) :
    (mttrPopulation l).filterMap (fun i => (endTimeOf i).map
        (fun (e : Int) => ((e : ℚ) - (i.created_at : ℚ)) / 60)) =
      (mttrPopulation l).map resolutionMinutes := by
  rw [filterMap_eq_map_of_endTime (fun i (e : Int) => ((e : ℚ) - (i.created_at : ℚ)) / 60)
    (mttrPopulation l) (mttrPopulation_endTime_isSome l)]
  rfl

theorem metrics_breach_list (l : List Incident) :
    (mttrPopulation l).filterMap (fun i => (endTimeOf i).map
        (fun (e : Int) => if breach_state i.created_at e
            (severity_hours i.service_policy i.severity) then (1 : ℚ) else 0)) =
      (mttrPopulation l).map (fun i => if breachedClaim i then (1 : ℚ) else 0) := by
  rw [filterMap_eq_map_of_endTime
    (fun i (e : Int) => if breach_state i.created_at e
      (severity_hours i.service_policy i.severity) then (1 : ℚ) else 0)
    (mttrPopulation l) (mttrPopulation_endTime_isSome l)]
  rfl

theorem sum_map_indicator (p : Incident → Bool) (l : List Incident) :
    (l.map (fun i => if p i then (1 : ℚ) else 0)).sum = (l.countP p : ℚ) := by
  induction l with
  | nil => simp
  | cons a t ih =>
    by_cases h : p a = true
    · simp [List.countP_cons, h, ih]
      ring
    · simp [List.countP_cons, h, ih]

/-- C4: `metrics` computes exactly the spec's aggregate values: the
total count, the count of incidents whose status is outside
{Resolved, Closed}, the count with status exactly Closed, the rounded
mean acknowledgement delay over the acknowledged population (0 when
empty), the rounded mean resolution delay over the population with
`resolved_at` or `closed_at` set using `closed_at` when present
(0 when empty), the rounded breach percentage over that same
population (0 when empty), and all zeros on an empty collection. -/
theorem metrics_matches_spec (l : List Incident) :
    metrics l = ⟨l.length,
      l.countP (fun i => !(i.status == "Resolved" || i.status == "Closed")),
      l.countP (fun i => i.status == "Closed"),
      mttaClaim l, mttrClaim l, breachRateClaim l⟩ ∧
    metrics [] = ⟨0, 0, 0, 0, 0, 0⟩ := by
  refine ⟨?_, rfl⟩
  by_cases hl : l = []
  · subst hl
    rfl
  · unfold metrics
    rw [if_neg hl]
    simp only [MetricsOut.mk.injEq]
    refine ⟨trivial, ?_, ?_, ?_, ?_, ?_⟩
    · exact (List.countP_eq_length_filter _ l).symm
    · exact (List.countP_eq_length_filter _ l).symm
    · rw [metrics_ack_list l]
      unfold mttaClaim listMean
      by_cases hp : ackPopulation l = []
      · simp [hp]
      · rw [if_neg (by simp [hp]), if_neg hp, List.length_map]
    · rw [← mttrPopulation_def l, metrics_res_list l]
      unfold mttrClaim listMean
      by_cases hp : mttrPopulation l = []
      · simp [hp]
      · rw [if_neg (by simp [hp]), if_neg hp, List.length_map]
    · rw [← mttrPopulation_def l, metrics_breach_list l]
      unfold breachRateClaim
      by_cases hp : mttrPopulation l = []
      · simp [hp]
      · rw [if_neg (by simp [hp]), if_neg hp, sum_map_indicator, List.length_map]
        congr 1
        ring

theorem lifecycleInv_create (payload : IncidentCreate) (pol : Option (List (String × Int)))
    (t : Int) (actor : Nat) :
    lifecycleInv (create_incident payload pol t actor).1 ∧
    timesLE (create_incident payload pol t actor).1 t := by
  unfold create_incident lifecycleInv tsOrdered timesLE
  simp

theorem timesLE_mono {i : Incident} {t now : Int} (h : timesLE i t) (hle : t ≤ now) :
    timesLE i now := by
  obtain ⟨h1, h2, h3⟩ := h
  exact ⟨fun a ha => le_trans (h1 a ha) hle,
         fun r hr => le_trans (h2 r hr) hle,
         fun c hc => le_trans (h3 c hc) hle⟩

theorem update_status_preserves_inv {i : Incident} {p : IncidentStatusUpdate}
    {now : Int} {a : Nat} {i' : Incident} {e : IncidentEvent}
    (hInv : lifecycleInv i) (hle : timesLE i now)
    (hok : update_status i p now a = .ok (i', e)) :
    lifecycleInv i' ∧ timesLE i' now ∧ timestampsPreserved i i' := by
  obtain ⟨hmem, -, hi, -⟩ := update_status_ok_elim hok
  subst hi
  obtain ⟨⟨har, hrc, hac⟩, hstat5, hunset, hresun⟩ := hInv
  obtain ⟨hlea, hler, hlec⟩ := hle
  have htrue : transitionAllowed i.status p.status = true :=
    (transitionAllowed_mem _ _).mpr hmem
  rcases (transitionAllowed_true_iff _ _).mp htrue with
    ⟨h1, h2⟩ | ⟨h1, h2 | h2⟩ | ⟨h1, h2⟩ | ⟨h1, h2⟩
  · -- New → Investigating
    rw [h2]
    have hrn : i.resolved_at = none := (hunset (Or.inl h1)).1
    have hcn : i.closed_at = none := (hunset (Or.inl h1)).2
    by_cases hack : i.acknowledged_at = none
    · have hs : stampTimestamps i "Investigating" now =
          { i with acknowledged_at := some now, status := "Investigating" } := by
        simp [stampTimestamps, hack]
      rw [hs]
      refine ⟨⟨⟨?_, ?_, ?_⟩, ?_, ?_, ?_⟩, ⟨?_, ?_, ?_⟩, ⟨?_, ?_, ?_⟩⟩ <;>
        simp_all [tsOrdered]
    · have hs : stampTimestamps i "Investigating" now =
          { i with status := "Investigating" } := by
        simp [stampTimestamps, hack]
      rw [hs]
      refine ⟨⟨⟨?_, ?_, ?_⟩, ?_, ?_, ?_⟩, ⟨?_, ?_, ?_⟩, ⟨?_, ?_, ?_⟩⟩ <;>
        simp_all [tsOrdered]
  · -- Investigating → Mitigated
    rw [h2]
    have hrn : i.resolved_at = none := (hunset (Or.inr (Or.inl h1))).1
    have hcn : i.closed_at = none := (hunset (Or.inr (Or.inl h1))).2
    have hs : stampTimestamps i "Mitigated" now = { i with status := "Mitigated" } := by
      simp [stampTimestamps]
    rw [hs]
    refine ⟨⟨⟨?_, ?_, ?_⟩, ?_, ?_, ?_⟩, ⟨?_, ?_, ?_⟩, ⟨?_, ?_, ?_⟩⟩ <;>
      simp_all [tsOrdered]
  · -- Investigating → Resolved
    rw [h2]
    have hrn : i.resolved_at = none := (hunset (Or.inr (Or.inl h1))).1
    have hcn : i.closed_at = none := (hunset (Or.inr (Or.inl h1))).2
    have hs : stampTimestamps i "Resolved" now =
        { i with resolved_at := some now, status := "Resolved" } := by
      simp [stampTimestamps]
    rw [hs]
    refine ⟨⟨⟨?_, ?_, ?_⟩, ?_, ?_, ?_⟩, ⟨?_, ?_, ?_⟩, ⟨?_, ?_, ?_⟩⟩ <;>
      simp_all [tsOrdered]
  · -- Mitigated → Resolved
    rw [h2]
    have hrn : i.resolved_at = none := (hunset (Or.inr (Or.inr h1))).1
    have hcn : i.closed_at = none := (hunset (Or.inr (Or.inr h1))).2
    have hs : stampTimestamps i "Resolved" now =
        { i with resolved_at := some now, status := "Resolved" } := by
      simp [stampTimestamps]
    rw [hs]
    refine ⟨⟨⟨?_, ?_, ?_⟩, ?_, ?_, ?_⟩, ⟨?_, ?_, ?_⟩, ⟨?_, ?_, ?_⟩⟩ <;>
      simp_all [tsOrdered]
  · -- Resolved → Closed
    rw [h2]
    have hcn : i.closed_at = none := hresun h1
    have hs : stampTimestamps i "Closed" now =
        { i with closed_at := some now, status := "Closed" } := by
      simp [stampTimestamps]
    rw [hs]
    refine ⟨⟨⟨?_, ?_, ?_⟩, ?_, ?_, ?_⟩, ⟨?_, ?_, ?_⟩, ⟨?_, ?_, ?_⟩⟩ <;>
      simp_all [tsOrdered]

theorem reachable_inv {i : Incident} {t : Int} (h : ReachableAt i t) :
    lifecycleInv i ∧ timesLE i t := by
  induction h with
  | created payload pol t actor => exact lifecycleInv_create payload pol t actor
  | step p now actor hreach hle hok ih =>
    have hnow := timesLE_mono ih.2 hle
    have hstep := update_status_preserves_inv ih.1 hnow hok
    exact ⟨hstep.1, hstep.2.1⟩

/-- C6: every state reachable from a freshly created incident through
successful transitions (performed at nondecreasing times) has its set
timestamps in lifecycle order acknowledged ≤ resolved ≤ closed, and
one further successful transition never unsets or changes an
already-set timestamp — so along any transition sequence each of the
three timestamps is set at most once and never unset. -/
theorem reachable_timestamp_invariant {i : Incident} {t : Int}
    (h : ReachableAt i t) :
    tsOrdered i ∧
    (∀ (p : IncidentStatusUpdate) (now : Int) (a : Nat) (i' : Incident)
        (e : IncidentEvent),
      t ≤ now → update_status i p now a = .ok (i', e) →
      timestampsPreserved i i') := by
  refine ⟨(reachable_inv h).1.1, ?_⟩
  intro p now a i' e hle hok
  exact (update_status_preserves_inv (reachable_inv h).1
    (timesLE_mono (reachable_inv h).2 hle) hok).2.2

/-- C6 witness: create at time 0, move to Investigating at time 5: the
resulting state is ordered, and a further transition to Resolved at
time 9 preserves the acknowledgement timestamp. -/
theorem reachable_timestamp_invariant_witness :
    tsOrdered (⟨"db down", "primary database down", "SEV2", "Investigating",
      none, 0, some 5, none, none, none⟩ : Incident) ∧
    timestampsPreserved
      (⟨"db down", "primary database down", "SEV2", "Investigating",
        none, 0, some 5, none, none, none⟩ : Incident)
      (⟨"db down", "primary database down", "SEV2", "Resolved",
        none, 0, some 5, some 9, none, none⟩ : Incident) := by
  have hreach : ReachableAt
      (⟨"db down", "primary database down", "SEV2", "Investigating",
        none, 0, some 5, none, none, none⟩ : Incident) 5 :=
    ReachableAt.step ⟨"Investigating", none⟩ 5 3
      (ReachableAt.created samplePayload none 0 7) (by decide) (by rfl)
  exact ⟨(reachable_timestamp_invariant hreach).1,
         (reachable_timestamp_invariant hreach).2 ⟨"Resolved", none⟩ 9 3
           ⟨"db down", "primary database down", "SEV2", "Resolved",
            none, 0, some 5, some 9, none, none⟩
           ⟨"status_change", "Status changed to Resolved", 3⟩
           (by decide) (by rfl)⟩

end IncidentConsole
